import Mathlib

/-!
# taller01-manet.cc : three ad hoc Wi-Fi clusters joined by a gateway node

The program is a single `main` that drives helper objects of the ns-3
simulator.  The embedding below follows `main` statement by statement and
keeps, for every helper call, the part of its effect that the topology
depends on: which node objects exist, which Wi-Fi device sits on which node
and channel, on which nodes an Internet stack was installed, and which IPv4
address each device received.

Object identity is modelled by numbering: a node is its id in the
simulator's node list, a channel is the ordinal of the `channel.Create ()`
call that made it, a device is (node, interface index on that node, channel).

Radio propagation, mobility, AODV route discovery, Pcap and NetAnim output
are not modelled.  `stopTime` is a C++ `double`; it is modelled by a
rational, which is exact for the default `30.0` and for `stopTime - 1`.
-/

namespace Manet

/-! ## Simulator objects -/

/-- A node object, named by its id in the simulator's node list. -/
abbrev Node := Nat

/-- The ns-3 `NodeContainer`: node pointers in insertion order. -/
abbrev NodeContainer := List Node

/-- A `YansWifiChannel` object, named by the ordinal of its creation. -/
abbrev Channel := Nat

/-- A Wi-Fi net device: the node it was added to, its index among that
node's devices, and the channel its PHY is attached to. -/
structure NetDevice where
  node : Node
  ifIndex : Nat
  channel : Channel
deriving DecidableEq, Repr

/-- The ns-3 `NetDeviceContainer`: device pointers in insertion order. -/
abbrev NetDeviceContainer := List NetDevice

/-- Global simulator state touched by `main`: how many nodes and channels
exist, every Wi-Fi device created so far (creation order), and the nodes an
Internet stack was installed on (one entry per installation). -/
structure Simulation where
  nNodes : Nat
  nChannels : Nat
  devices : List NetDevice
  ipv4Nodes : List Node
deriving DecidableEq, Repr

/-- State before `main` creates anything. -/
def Simulation.empty : Simulation :=
  { nNodes := 0, nChannels := 0, devices := [], ipv4Nodes := [] }

/-- Ids of `n` nodes created one after the other, the first one being `id`. -/
def freshNodes : Nat → Nat → List Node
  | _, 0 => []
  | id, n + 1 => id :: freshNodes (id + 1) n

/-- `NodeContainer::Create (n)`: creates `n` new nodes and appends them. -/
def NodeContainer.Create (c : NodeContainer) (n : Nat) (sim : Simulation) :
    NodeContainer × Simulation :=
  (c ++ freshNodes sim.nNodes n, { sim with nNodes := sim.nNodes + n })

/-- `NodeContainer::Get (i)`: the i-th node; there is none when `i` is out
of range (the C++ call indexes the underlying vector unchecked). -/
def NodeContainer.Get (nodes : NodeContainer) (i : Nat) : Option Node := nodes[i]?

/-- `NodeContainer::Add (Ptr<Node>)`. -/
def NodeContainer.AddNode (c : NodeContainer) (n : Node) : NodeContainer := c ++ [n]

/-- `NodeContainer::Add (NodeContainer)`. -/
def NodeContainer.AddContainer (c other : NodeContainer) : NodeContainer := c ++ other

/-- `YansWifiChannelHelper::Create ()`: a new channel object on every call. -/
def YansWifiChannelHelper.Create (sim : Simulation) : Channel × Simulation :=
  (sim.nChannels, { sim with nChannels := sim.nChannels + 1 })

/-- `Node::GetNDevices ()` restricted to Wi-Fi devices. -/
def Simulation.nDevices (sim : Simulation) (n : Node) : Nat :=
  (sim.devices.filter (fun d => d.node = n)).length

/-- The Wi-Fi devices that sit on node `n`, in creation order. -/
def Simulation.devicesOf (sim : Simulation) (n : Node) : List NetDevice :=
  sim.devices.filter (fun d => d.node = n)

/-- One iteration of `WifiHelper::Install`: a new device whose PHY is
attached to the helper's channel is added to the node. -/
def WifiHelper.installNode (phy : Channel) (n : Node) (sim : Simulation) :
    NetDevice × Simulation :=
  let d : NetDevice := { node := n, ifIndex := sim.nDevices n, channel := phy }
  (d, { sim with devices := sim.devices ++ [d] })

/-- `WifiHelper::Install (phy, mac, c)`: one new device per node of `c`, in
the order of `c`; the PHY helper is represented by the channel it was given
with `SetChannel`. -/
def WifiHelper.Install (phy : Channel) : NodeContainer → Simulation →
    NetDeviceContainer × Simulation
  | [], sim => ([], sim)
  | n :: rest, sim =>
    let r := WifiHelper.installNode phy n sim
    let rs := WifiHelper.Install phy rest r.2
    (r.1 :: rs.1, rs.2)

/-- `InternetStackHelper::Install (c)`: every node of `c` gets a stack. -/
def InternetStackHelper.Install (c : NodeContainer) (sim : Simulation) : Simulation :=
  { sim with ipv4Nodes := sim.ipv4Nodes ++ c }

/-! ## IPv4 address allocation -/

/-- The 32-bit value of the dotted quad `a.b.c.d`. -/
def Ipv4Address (a b c d : Nat) : Nat := a * 2 ^ 24 + b * 2 ^ 16 + c * 2 ^ 8 + d

/-- State of the ns-3 `Ipv4AddressHelper`. -/
structure Ipv4AddressHelper where
  network : Nat
  mask : Nat
  address : Nat
  base : Nat
  shift : Nat
  max : Nat
deriving DecidableEq, Repr

/-- Loop of `Ipv4AddressHelper::NumAddressBits`: position of the lowest set
bit of the mask among `fuel` remaining bits, starting the count at `i`. -/
def numAddressBitsLoop : Nat → Nat → Nat → Option Nat
  | 0, _, _ => none
  | fuel + 1, i, maskbits =>
    if maskbits % 2 = 1 then some i else numAddressBitsLoop fuel (i + 1) (maskbits / 2)

/-- `Ipv4AddressHelper::NumAddressBits`: number of host bits of a mask; a
mask without any set bit is rejected. -/
def NumAddressBits (maskbits : Nat) : Option Nat := numAddressBitsLoop 32 0 maskbits

/-- `Ipv4AddressHelper::SetBase (network, mask)` with the default first host
address `0.0.0.1`: every field of the helper is overwritten. -/
def Ipv4AddressHelper.SetBase (network mask : Nat) : Option Ipv4AddressHelper :=
  if network &&& (mask ^^^ (2 ^ 32 - 1)) = 0 then
    (NumAddressBits mask).map fun shift =>
      { network := network >>> shift
        mask := mask
        address := 1
        base := 1
        shift := shift
        max := ((1 <<< shift) % 2 ^ 32 + 2 ^ 32 - 2) % 2 ^ 32 }
  else none

/-- `Ipv4AddressHelper::NewAddress ()`: the next host address of the current
network; the simulator aborts once the host part is exhausted. -/
def Ipv4AddressHelper.NewAddress (h : Ipv4AddressHelper) : Option (Nat × Ipv4AddressHelper) :=
  if h.address ≤ h.max then
    some ((h.network <<< h.shift) ||| h.address, { h with address := h.address + 1 })
  else none

/-- One entry of an `Ipv4InterfaceContainer`: the interface made for a
device, with the address and mask it was given. -/
structure Ipv4Interface where
  device : NetDevice
  addr : Nat
  mask : Nat
deriving DecidableEq, Repr

/-- The ns-3 `Ipv4InterfaceContainer`, one entry per assigned device. -/
abbrev Ipv4InterfaceContainer := List Ipv4Interface

/-- `Ipv4AddressHelper::Assign (devices)`: in container order, each device
gets the next address; a device on a node without Internet stack, or an
exhausted address pool, aborts the program. -/
def Ipv4AddressHelper.Assign (sim : Simulation) :
    Ipv4AddressHelper → NetDeviceContainer → Option Ipv4InterfaceContainer
  | _, [] => some []
  | h, d :: ds =>
    if d.node ∈ sim.ipv4Nodes then
      match h.NewAddress with
      | none => none
      | some (a, h1) =>
        match Ipv4AddressHelper.Assign sim h1 ds with
        | none => none
        | some rest => some ({ device := d, addr := a, mask := h.mask } :: rest)
    else none

/-- `Ipv4InterfaceContainer::GetAddress (i)`. -/
def Ipv4InterfaceContainer.GetAddress (ifaces : Ipv4InterfaceContainer) (i : Nat) :
    Option Nat :=
  (ifaces[i]?).map fun e => e.addr

/-! ## Command line -/

/-- The variables `main` registers with `CommandLine::AddValue`. -/
structure Config where
  useCourseChangeCallback : Bool
  nNodesC1 : Nat
  nNodesC2 : Nat
  nNodesC3 : Nat
  stopTime : Rat
deriving DecidableEq, Repr

/-- Initial values of the five variables (lines 46-50). -/
def Config.initial : Config :=
  { useCourseChangeCallback := false
    nNodesC1 := 3
    nNodesC2 := 3
    nNodesC3 := 2
    stopTime := 30 }

/-- A command-line flag after splitting `--name=value` and reading the value
in the type of the registered variable. -/
inductive Flag where
  | useCourseChangeCallback (v : Bool)
  | nNodesC1 (v : Nat)
  | nNodesC2 (v : Nat)
  | nNodesC3 (v : Nat)
  | stopTime (v : Rat)
  | unknown (name : String)
deriving DecidableEq, Repr

/-- `CommandLine::HandleArgument`: a known flag overwrites its variable, a
count that does not fit `uint32_t` or an unknown flag ends the program. -/
def CommandLine.HandleArgument (cfg : Config) : Flag → Option Config
  | .useCourseChangeCallback v => some { cfg with useCourseChangeCallback := v }
  | .nNodesC1 v => if v < 2 ^ 32 then some { cfg with nNodesC1 := v } else none
  | .nNodesC2 v => if v < 2 ^ 32 then some { cfg with nNodesC2 := v } else none
  | .nNodesC3 v => if v < 2 ^ 32 then some { cfg with nNodesC3 := v } else none
  | .stopTime v => some { cfg with stopTime := v }
  | .unknown _ => none

/-- `CommandLine::Parse`: the flags are handled from left to right. -/
def CommandLine.Parse (cfg : Config) : List Flag → Option Config
  | [] => some cfg
  | f :: fs =>
    match CommandLine.HandleArgument cfg f with
    | none => none
    | some cfg1 => CommandLine.Parse cfg1 fs

/-! ## `main`, section by section -/

/-- Local variables of `main` once the three Wi-Fi networks are installed
(after line 137). -/
structure Topology where
  sim : Simulation
  cluster1 : NodeContainer
  cluster2 : NodeContainer
  cluster3 : NodeContainer
  gatewayNode : Node
  devicesC1 : NetDeviceContainer
  devicesC2 : NetDeviceContainer
  cluster3All : NodeContainer
  devicesC3 : NetDeviceContainer
deriving DecidableEq, Repr

/-- Sections 1 to 3 of `main` (lines 75-137): node creation, the gateway
node, one channel and one `Install` per cluster. -/
def buildTopology (cfg : Config) : Option Topology :=
  let r1 := NodeContainer.Create [] cfg.nNodesC1 Simulation.empty
  let cluster1 := r1.1
  let r2 := NodeContainer.Create [] cfg.nNodesC2 r1.2
  let cluster2 := r2.1
  let r3 := NodeContainer.Create [] cfg.nNodesC3 r2.2
  let cluster3 := r3.1
  match NodeContainer.Get cluster1 0 with
  | none => none
  | some gatewayNode =>
    let c1 := YansWifiChannelHelper.Create r3.2
    let phy := c1.1
    let i1 := WifiHelper.Install phy cluster1 c1.2
    let devicesC1 := i1.1
    let c2 := YansWifiChannelHelper.Create i1.2
    let phy2 := c2.1
    let i2 := WifiHelper.Install phy2 cluster2 c2.2
    let devicesC2 := i2.1
    let c3 := YansWifiChannelHelper.Create i2.2
    let phy3 := c3.1
    let cluster3All :=
      NodeContainer.AddContainer (NodeContainer.AddNode [] gatewayNode) cluster3
    let i3 := WifiHelper.Install phy3 cluster3All c3.2
    let devicesC3 := i3.1
    some
      { sim := i3.2
        cluster1 := cluster1
        cluster2 := cluster2
        cluster3 := cluster3
        gatewayNode := gatewayNode
        devicesC1 := devicesC1
        devicesC2 := devicesC2
        cluster3All := cluster3All
        devicesC3 := devicesC3 }

/-- Section 4 of `main` (lines 154-156): the three `stack.Install` calls. -/
def installInternet (t : Topology) : Topology :=
  let s1 := InternetStackHelper.Install t.cluster1 t.sim
  let s2 := InternetStackHelper.Install t.cluster2 s1
  let s3 := InternetStackHelper.Install t.cluster3 s2
  { t with sim := s3 }

/-- Local variables of `main` after address assignment (after line 176). -/
structure Addressed where
  topo : Topology
  ifacesC1 : Ipv4InterfaceContainer
  ifacesC2 : Ipv4InterfaceContainer
  ifacesC3 : Ipv4InterfaceContainer
deriving DecidableEq, Repr

/-- Section 5 of `main` (lines 164-176): one `SetBase` and one `Assign` per
cluster. -/
def assignAddresses (t : Topology) : Option Addressed :=
  match Ipv4AddressHelper.SetBase (Ipv4Address 10 1 1 0) (Ipv4Address 255 255 255 0) with
  | none => none
  | some address =>
    match Ipv4AddressHelper.Assign t.sim address t.devicesC1 with
    | none => none
    | some ifacesC1 =>
      match Ipv4AddressHelper.SetBase (Ipv4Address 10 1 2 0) (Ipv4Address 255 255 255 0) with
      | none => none
      | some address =>
        match Ipv4AddressHelper.Assign t.sim address t.devicesC2 with
        | none => none
        | some ifacesC2 =>
          match Ipv4AddressHelper.SetBase (Ipv4Address 10 1 3 0)
              (Ipv4Address 255 255 255 0) with
          | none => none
          | some address =>
            match Ipv4AddressHelper.Assign t.sim address t.devicesC3 with
            | none => none
            | some ifacesC3 =>
              some
                { topo := t
                  ifacesC1 := ifacesC1
                  ifacesC2 := ifacesC2
                  ifacesC3 := ifacesC3 }

/-- Sections 1 to 5 of `main`: the network as it stands after line 176. -/
def buildNetwork (cfg : Config) : Option Addressed :=
  match buildTopology cfg with
  | none => none
  | some t => assignAddresses (installInternet t)

/-- Line 203: the node the echo server is installed on, `cluster3.Get (0)`. -/
def echoServerNode (a : Addressed) : Option Node := NodeContainer.Get a.topo.cluster3 0

/-- Line 208: the remote address the echo client is built with,
`ifacesC3.GetAddress (1)`. -/
def echoClientRemote (a : Addressed) : Option Nat :=
  Ipv4InterfaceContainer.GetAddress a.ifacesC3 1

/-- Line 217: the node the echo client is installed on, `cluster2.Get (0)`. -/
def echoClientNode (a : Addressed) : Option Node := NodeContainer.Get a.topo.cluster2 0

/-- What a complete run of `main` has set up when `Simulator::Run` starts. -/
structure Run where
  cfg : Config
  net : Addressed
  serverNode : Node
  serverStart : Rat
  serverStop : Rat
  clientRemote : Nat
  clientPort : Nat
  clientNode : Node
  clientStart : Rat
  clientStop : Rat
  courseChangeConnected : Bool
  simulatorStop : Rat
deriving DecidableEq, Repr

/-- The whole of `main` (lines 46-243) on the flags of the command line.
Mobility (lines 180-193), Pcap (line 224) and NetAnim (lines 235-237) leave
nodes, devices and addresses untouched and are not represented; of the
echo client attributes only the remote address and port are kept.  The
stop times of the applications are the exact value `stopTime - 1`; the C++
subtraction is done in `double` and agrees with it when `stopTime` and
`stopTime - 1` are both representable, as they are for the initial 30. -/
def main (flags : List Flag) : Option Run :=
  match CommandLine.Parse Config.initial flags with
  | none => none
  | some cfg =>
    match buildNetwork cfg with
    | none => none
    | some net =>
      let port := 9
      match echoServerNode net with
      | none => none
      | some serverNode =>
        match echoClientRemote net with
        | none => none
        | some remote =>
          match echoClientNode net with
          | none => none
          | some clientNode =>
            some
              { cfg := cfg
                net := net
                serverNode := serverNode
                serverStart := 1
                serverStop := cfg.stopTime - 1
                clientRemote := remote
                clientPort := port
                clientNode := clientNode
                clientStart := 2
                clientStop := cfg.stopTime - 1
                courseChangeConnected := cfg.useCourseChangeCallback
                simulatorStop := cfg.stopTime }

/-! ## The link graph of a topology -/

/-- Two nodes are linked when each of them carries a Wi-Fi device attached
to one and the same channel. -/
def linked (sim : Simulation) (a b : Node) : Bool :=
  sim.devices.any fun da =>
    sim.devices.any fun db =>
      decide (da.node = a) && decide (db.node = b) && decide (da.channel = db.channel)

/-- Node `b` can be reached from node `a` over a chain of links. -/
def Connected (sim : Simulation) (a b : Node) : Prop :=
  Relation.ReflTransGen (fun x y => linked sim x y = true) a b

/-- Two devices belong to the same device container of `main`. -/
def sameContainer (t : Topology) (d e : NetDevice) : Prop :=
  (d ∈ t.devicesC1 ∧ e ∈ t.devicesC1) ∨ (d ∈ t.devicesC2 ∧ e ∈ t.devicesC2) ∨
    (d ∈ t.devicesC3 ∧ e ∈ t.devicesC3)

/-! ## Predicates used in the proofs -/

/-- What sections 1 to 3 of `main` leave behind for a given configuration. -/
structure Shape (cfg : Config) (t : Topology) : Prop where
  cluster1 : t.cluster1 = freshNodes 0 cfg.nNodesC1
  cluster2 : t.cluster2 = freshNodes cfg.nNodesC1 cfg.nNodesC2
  cluster3 : t.cluster3 = freshNodes (cfg.nNodesC1 + cfg.nNodesC2) cfg.nNodesC3
  gateway : t.cluster1[0]? = some t.gatewayNode
  gateway_zero : t.gatewayNode = 0
  all3 : t.cluster3All = t.gatewayNode :: t.cluster3
  nodes1 : t.devicesC1.map NetDevice.node = t.cluster1
  nodes2 : t.devicesC2.map NetDevice.node = t.cluster2
  nodes3 : t.devicesC3.map NetDevice.node = t.cluster3All
  chan1 : ∀ d ∈ t.devicesC1, d.channel = 0
  chan2 : ∀ d ∈ t.devicesC2, d.channel = 1
  chan3 : ∀ d ∈ t.devicesC3, d.channel = 2
  devices : t.sim.devices = t.devicesC1 ++ t.devicesC2 ++ t.devicesC3
  nNodes : t.sim.nNodes = cfg.nNodesC1 + cfg.nNodesC2 + cfg.nNodesC3
  nChannels : t.sim.nChannels = 3

/-- The helper state right after `SetBase ("10.1.k.0", "255.255.255.0")`. -/
def subnetHelper (k : Nat) : Ipv4AddressHelper :=
  { network := 10 * 2 ^ 16 + 1 * 2 ^ 8 + k
    mask := Ipv4Address 255 255 255 0
    address := 1
    base := 1
    shift := 8
    max := 254 }

/-- What section 5 of `main` leaves behind: per cluster, one interface per
device, in device order, numbered upwards from host 1 of the subnet
(`freshNodes b n` is the sequence `b, b + 1, ..., b + n - 1`). -/
structure Numbered (cfg : Config) (a : Addressed) : Prop where
  shape : Shape cfg a.topo
  dev1 : a.ifacesC1.map Ipv4Interface.device = a.topo.devicesC1
  dev2 : a.ifacesC2.map Ipv4Interface.device = a.topo.devicesC2
  dev3 : a.ifacesC3.map Ipv4Interface.device = a.topo.devicesC3
  addr1 : a.ifacesC1.map Ipv4Interface.addr = freshNodes (Ipv4Address 10 1 1 1) cfg.nNodesC1
  addr2 : a.ifacesC2.map Ipv4Interface.addr = freshNodes (Ipv4Address 10 1 2 1) cfg.nNodesC2
  addr3 : a.ifacesC3.map Ipv4Interface.addr =
    freshNodes (Ipv4Address 10 1 3 1) (cfg.nNodesC3 + 1)
  mask1 : ∀ e ∈ a.ifacesC1, e.mask = Ipv4Address 255 255 255 0
  mask2 : ∀ e ∈ a.ifacesC2, e.mask = Ipv4Address 255 255 255 0
  mask3 : ∀ e ∈ a.ifacesC3, e.mask = Ipv4Address 255 255 255 0

/-- The echo client is aimed at the echo server: the server node
`cluster3.Get (0)` exists; `ifacesC3.GetAddress (1)` is the address of entry
1 of `ifacesC3`, which was made for `devicesC3[1]`, a device on the server
node, and is the only entry of `ifacesC3` on that node; entry 0 of
`devicesC3` and `ifacesC3` belongs to the gateway node and entry i+1 to
`cluster3.Get (i)`, for every i below `nNodesC3`. -/
def ClientAimedAtServer (cfg : Config) (a : Addressed) : Prop :=
  ∃ server e,
    echoServerNode a = some server ∧
    a.ifacesC3[1]? = some e ∧
    echoClientRemote a = some e.addr ∧
    a.topo.devicesC3[1]? = some e.device ∧
    e.device.node = server ∧
    (∀ f ∈ a.ifacesC3, f.device.node = server → f = e) ∧
    (∃ e0, a.ifacesC3[0]? = some e0 ∧ a.topo.devicesC3[0]? = some e0.device ∧
      e0.device.node = a.topo.gatewayNode) ∧
    (∀ i, i < cfg.nNodesC3 → ∃ ei, a.ifacesC3[i + 1]? = some ei ∧
      a.topo.devicesC3[i + 1]? = some ei.device ∧
      NodeContainer.Get a.topo.cluster3 i = some ei.device.node)

/-! ## Facts about the helper operations -/

theorem mem_freshNodes (n id x : Nat) : x ∈ freshNodes id n ↔ id ≤ x ∧ x < id + n := by
  induction n generalizing id with
  | zero => simp [freshNodes]
  | succ k ih =>
    simp only [freshNodes, List.mem_cons, ih]
    omega

theorem length_freshNodes (n id : Nat) : (freshNodes id n).length = n := by
  induction n generalizing id with
  | zero => rfl
  | succ k ih => simp [freshNodes, ih]

theorem nodup_freshNodes (n id : Nat) : (freshNodes id n).Nodup := by
  induction n generalizing id with
  | zero => simp [freshNodes]
  | succ k ih =>
    simp only [freshNodes, List.nodup_cons, mem_freshNodes]
    exact ⟨by omega, ih (id + 1)⟩

theorem getElem?_freshNodes (n id i : Nat) (h : i < n) : (freshNodes id n)[i]? = some (id + i) := by
  induction n generalizing id i with
  | zero => omega
  | succ k ih =>
    cases i with
    | zero => simp [freshNodes]
    | succ j =>
      simp only [freshNodes, List.getElem?_cons_succ]
      rw [ih (id + 1) j (by omega)]
      congr 1
      omega

theorem Install_map_node (phy : Channel) (nodes : NodeContainer) (sim : Simulation) :
    (WifiHelper.Install phy nodes sim).1.map NetDevice.node = nodes := by
  induction nodes generalizing sim with
  | nil => rfl
  | cons n rest ih => simp [WifiHelper.Install, WifiHelper.installNode, ih]

theorem Install_channel (phy : Channel) (nodes : NodeContainer) (sim : Simulation) :
    ∀ d ∈ (WifiHelper.Install phy nodes sim).1, d.channel = phy := by
  induction nodes generalizing sim with
  | nil => simp [WifiHelper.Install]
  | cons n rest ih =>
    intro d hd
    simp only [WifiHelper.Install, List.mem_cons] at hd
    rcases hd with rfl | hd
    · rfl
    · exact ih _ d hd

theorem Install_devices (phy : Channel) (nodes : NodeContainer) (sim : Simulation) :
    (WifiHelper.Install phy nodes sim).2.devices =
      sim.devices ++ (WifiHelper.Install phy nodes sim).1 := by
  induction nodes generalizing sim with
  | nil => simp [WifiHelper.Install]
  | cons n rest ih => simp [WifiHelper.Install, WifiHelper.installNode, ih]

theorem Install_nNodes (phy : Channel) (nodes : NodeContainer) (sim : Simulation) :
    (WifiHelper.Install phy nodes sim).2.nNodes = sim.nNodes := by
  induction nodes generalizing sim with
  | nil => rfl
  | cons n rest ih => simp [WifiHelper.Install, WifiHelper.installNode, ih]

theorem Install_nChannels (phy : Channel) (nodes : NodeContainer) (sim : Simulation) :
    (WifiHelper.Install phy nodes sim).2.nChannels = sim.nChannels := by
  induction nodes generalizing sim with
  | nil => rfl
  | cons n rest ih => simp [WifiHelper.Install, WifiHelper.installNode, ih]

theorem Install_ipv4Nodes (phy : Channel) (nodes : NodeContainer) (sim : Simulation) :
    (WifiHelper.Install phy nodes sim).2.ipv4Nodes = sim.ipv4Nodes := by
  induction nodes generalizing sim with
  | nil => rfl
  | cons n rest ih => simp [WifiHelper.Install, WifiHelper.installNode, ih]

theorem buildTopology_none (cfg : Config) (h : cfg.nNodesC1 = 0) : buildTopology cfg = none := by
  simp [buildTopology, NodeContainer.Create, NodeContainer.Get, h, freshNodes]

theorem buildTopology_some (cfg : Config) (h : 1 ≤ cfg.nNodesC1) :
    ∃ t, buildTopology cfg = some t ∧ Shape cfg t := by
  obtain ⟨k, hk⟩ : ∃ k, cfg.nNodesC1 = k + 1 := ⟨cfg.nNodesC1 - 1, by omega⟩
  have hget : NodeContainer.Get
      (NodeContainer.Create [] cfg.nNodesC1 Simulation.empty).1 0 = some 0 := by
    simp [NodeContainer.Create, NodeContainer.Get, hk, freshNodes, Simulation.empty]
  unfold buildTopology
  simp only [hget]
  refine ⟨_, rfl, ?_⟩
  constructor
  · simp [NodeContainer.Create, Simulation.empty]
  · simp [NodeContainer.Create, Simulation.empty]
  · simp [NodeContainer.Create, Simulation.empty]
  · simpa [NodeContainer.Get] using hget
  · rfl
  · simp [NodeContainer.AddContainer, NodeContainer.AddNode]
  · exact Install_map_node _ _ _
  · exact Install_map_node _ _ _
  · exact Install_map_node _ _ _
  · intro d hd
    rw [Install_channel _ _ _ d hd]
    simp [YansWifiChannelHelper.Create, NodeContainer.Create, Simulation.empty]
  · intro d hd
    rw [Install_channel _ _ _ d hd]
    simp [YansWifiChannelHelper.Create, NodeContainer.Create, Simulation.empty,
      Install_nChannels]
  · intro d hd
    rw [Install_channel _ _ _ d hd]
    simp [YansWifiChannelHelper.Create, NodeContainer.Create, Simulation.empty,
      Install_nChannels]
  · simp [Install_devices, YansWifiChannelHelper.Create, NodeContainer.Create,
      Simulation.empty]
  · simp [Install_nNodes, YansWifiChannelHelper.Create, NodeContainer.Create,
      Simulation.empty]
  · simp [Install_nChannels, YansWifiChannelHelper.Create, NodeContainer.Create,
      Simulation.empty]

theorem buildTopology_ipv4Nodes (cfg : Config) (t : Topology)
    (h : buildTopology cfg = some t) : t.sim.ipv4Nodes = [] := by
  simp only [buildTopology] at h
  split at h
  · exact absurd h (by simp)
  · simp only [Option.some.injEq] at h
    subst h
    simp [Install_ipv4Nodes, YansWifiChannelHelper.Create, NodeContainer.Create,
      Simulation.empty]

theorem devicesOf_eq_nil (devs : List NetDevice) (n : Node)
    (h : n ∉ devs.map NetDevice.node) : devs.filter (fun d => d.node = n) = [] := by
  rw [List.filter_eq_nil_iff]
  intro d hd
  simp only [decide_eq_true_eq]
  intro hn
  exact h (List.mem_map.mpr ⟨d, hd, hn⟩)

theorem devicesOf_length_of_nodup (devs : List NetDevice) (n : Node)
    (hnd : (devs.map NetDevice.node).Nodup) :
    (devs.filter (fun d => d.node = n)).length =
      if n ∈ devs.map NetDevice.node then 1 else 0 := by
  induction devs with
  | nil => simp
  | cons d rest ih =>
    simp only [List.map_cons, List.nodup_cons] at hnd
    by_cases hd : d.node = n
    · subst hd
      simp [List.filter_cons, devicesOf_eq_nil rest d.node hnd.1]
    · have hne : ¬ n = d.node := fun e => hd e.symm
      simp only [List.filter_cons, hd, decide_False, Bool.false_eq_true, if_false,
        List.map_cons, List.mem_cons, hne, false_or]
      exact ih hnd.2

theorem Shape.gateway_not_mem_cluster2 {cfg : Config} {t : Topology} (s : Shape cfg t)
    (h : 1 ≤ cfg.nNodesC1) : t.gatewayNode ∉ t.cluster2 := by
  rw [s.cluster2, s.gateway_zero, mem_freshNodes]
  omega

theorem Shape.gateway_not_mem_cluster3 {cfg : Config} {t : Topology} (s : Shape cfg t)
    (h : 1 ≤ cfg.nNodesC1) : t.gatewayNode ∉ t.cluster3 := by
  rw [s.cluster3, s.gateway_zero, mem_freshNodes]
  omega

theorem Shape.gateway_mem_cluster1 {cfg : Config} {t : Topology} (s : Shape cfg t)
    (h : 1 ≤ cfg.nNodesC1) : t.gatewayNode ∈ t.cluster1 := by
  rw [s.cluster1, s.gateway_zero, mem_freshNodes]
  omega

theorem Shape.nodup_cluster3All {cfg : Config} {t : Topology} (s : Shape cfg t)
    (h : 1 ≤ cfg.nNodesC1) : t.cluster3All.Nodup := by
  rw [s.all3, List.nodup_cons]
  refine ⟨s.gateway_not_mem_cluster3 h, ?_⟩
  rw [s.cluster3]
  exact nodup_freshNodes _ _

theorem Shape.disjoint12 {cfg : Config} {t : Topology} (s : Shape cfg t) (n : Node)
    (h1 : n ∈ t.cluster1) : n ∉ t.cluster2 := by
  rw [s.cluster1, mem_freshNodes] at h1
  rw [s.cluster2, mem_freshNodes]
  omega

theorem Shape.disjoint13 {cfg : Config} {t : Topology} (s : Shape cfg t) (n : Node)
    (h1 : n ∈ t.cluster1) : n ∉ t.cluster3 := by
  rw [s.cluster1, mem_freshNodes] at h1
  rw [s.cluster3, mem_freshNodes]
  omega

theorem Shape.disjoint23 {cfg : Config} {t : Topology} (s : Shape cfg t) (n : Node)
    (h2 : n ∈ t.cluster2) : n ∉ t.cluster3 := by
  rw [s.cluster2, mem_freshNodes] at h2
  rw [s.cluster3, mem_freshNodes]
  omega

theorem Shape.mem_clusters {cfg : Config} {t : Topology} (s : Shape cfg t) (n : Nat) :
    n < t.sim.nNodes ↔ n ∈ t.cluster1 ∨ n ∈ t.cluster2 ∨ n ∈ t.cluster3 := by
  rw [s.nNodes, s.cluster1, s.cluster2, s.cluster3, mem_freshNodes, mem_freshNodes,
    mem_freshNodes]
  constructor <;> intro hn <;> omega

/-- Number of Wi-Fi devices on a node, by cluster membership. -/
theorem Shape.devicesOf_length {cfg : Config} {t : Topology} (s : Shape cfg t)
    (h : 1 ≤ cfg.nNodesC1) (n : Node) :
    (t.sim.devicesOf n).length =
      (if n ∈ t.cluster1 then 1 else 0) + (if n ∈ t.cluster2 then 1 else 0) +
        (if n ∈ t.cluster3All then 1 else 0) := by
  unfold Simulation.devicesOf
  rw [s.devices, List.filter_append, List.filter_append, List.length_append,
    List.length_append,
    devicesOf_length_of_nodup t.devicesC1 n (by rw [s.nodes1, s.cluster1]; exact nodup_freshNodes _ _),
    devicesOf_length_of_nodup t.devicesC2 n (by rw [s.nodes2, s.cluster2]; exact nodup_freshNodes _ _),
    devicesOf_length_of_nodup t.devicesC3 n (by rw [s.nodes3]; exact s.nodup_cluster3All h),
    s.nodes1, s.nodes2, s.nodes3]

theorem Shape.devices_length {cfg : Config} {t : Topology} (s : Shape cfg t) :
    t.sim.devices.length = cfg.nNodesC1 + cfg.nNodesC2 + cfg.nNodesC3 + 1 := by
  have l1 : t.devicesC1.length = cfg.nNodesC1 := by
    rw [← List.length_map t.devicesC1 NetDevice.node, s.nodes1, s.cluster1, length_freshNodes]
  have l2 : t.devicesC2.length = cfg.nNodesC2 := by
    rw [← List.length_map t.devicesC2 NetDevice.node, s.nodes2, s.cluster2, length_freshNodes]
  have l3 : t.devicesC3.length = cfg.nNodesC3 + 1 := by
    rw [← List.length_map t.devicesC3 NetDevice.node, s.nodes3, s.all3, List.length_cons,
      s.cluster3, length_freshNodes]
  rw [s.devices, List.length_append, List.length_append, l1, l2, l3]
  omega

theorem nodup_of_map_node (devs : List NetDevice) (h : (devs.map NetDevice.node).Nodup) :
    devs.Nodup := List.Nodup.of_map NetDevice.node h

theorem Shape.devices_nodup {cfg : Config} {t : Topology} (s : Shape cfg t)
    (h : 1 ≤ cfg.nNodesC1) : t.sim.devices.Nodup := by
  have n1 : t.devicesC1.Nodup :=
    nodup_of_map_node _ (by rw [s.nodes1, s.cluster1]; exact nodup_freshNodes _ _)
  have n2 : t.devicesC2.Nodup :=
    nodup_of_map_node _ (by rw [s.nodes2, s.cluster2]; exact nodup_freshNodes _ _)
  have n3 : t.devicesC3.Nodup :=
    nodup_of_map_node _ (by rw [s.nodes3]; exact s.nodup_cluster3All h)
  rw [s.devices, List.nodup_append, List.nodup_append]
  refine ⟨⟨n1, n2, ?_⟩, n3, ?_⟩
  · intro d h1 h2
    exact absurd ((s.chan1 d h1).symm.trans (s.chan2 d h2)) (by decide)
  · intro d h12 h3
    rcases List.mem_append.mp h12 with h1 | h2
    · exact absurd ((s.chan1 d h1).symm.trans (s.chan3 d h3)) (by decide)
    · exact absurd ((s.chan2 d h2).symm.trans (s.chan3 d h3)) (by decide)

/-- The gateway carries the first device of `devicesC1` and the first device
of `devicesC3`, and nothing else. -/
theorem Shape.devicesOf_gateway {cfg : Config} {t : Topology} (s : Shape cfg t)
    (h : 1 ≤ cfg.nNodesC1) :
    ∃ d1 d3, t.devicesC1[0]? = some d1 ∧ t.devicesC3[0]? = some d3 ∧ d1 ≠ d3 ∧
      t.sim.devicesOf t.gatewayNode = [d1, d3] := by
  obtain ⟨k, hk⟩ : ∃ k, cfg.nNodesC1 = k + 1 := ⟨cfg.nNodesC1 - 1, by omega⟩
  have e1 := s.nodes1
  rw [s.cluster1, hk, freshNodes] at e1
  obtain ⟨d1, r1, hC1, hd1, hr1⟩ := List.map_eq_cons_iff.mp e1
  have e3 := s.nodes3
  rw [s.all3, s.gateway_zero] at e3
  obtain ⟨d3, r3, hC3, hd3, hr3⟩ := List.map_eq_cons_iff.mp e3
  have c1 : d1.channel = 0 := s.chan1 d1 (by rw [hC1]; exact List.mem_cons_self _ _)
  have c3 : d3.channel = 2 := s.chan3 d3 (by rw [hC3]; exact List.mem_cons_self _ _)
  refine ⟨d1, d3, by simp [hC1], by simp [hC3], ?_, ?_⟩
  · intro e
    rw [e] at c1
    exact absurd (c1.symm.trans c3) (by decide)
  · have z1 : r1.filter (fun d => d.node = 0) = [] :=
      devicesOf_eq_nil r1 0 (by rw [hr1, mem_freshNodes]; omega)
    have z2 : t.devicesC2.filter (fun d => d.node = 0) = [] :=
      devicesOf_eq_nil _ 0 (by rw [s.nodes2, s.cluster2, mem_freshNodes]; omega)
    have z3 : r3.filter (fun d => d.node = 0) = [] :=
      devicesOf_eq_nil r3 0 (by rw [hr3, s.cluster3, mem_freshNodes]; omega)
    unfold Simulation.devicesOf
    rw [s.devices, s.gateway_zero, hC1, hC3]
    simp [List.filter_append, List.filter_cons, hd1, hd3, z1, z2, z3]

theorem Shape.mem_devices {cfg : Config} {t : Topology} (s : Shape cfg t) (d : NetDevice) :
    d ∈ t.sim.devices ↔ d ∈ t.devicesC1 ∨ d ∈ t.devicesC2 ∨ d ∈ t.devicesC3 := by
  rw [s.devices, List.mem_append, List.mem_append, or_assoc]

theorem Shape.node_mem1 {cfg : Config} {t : Topology} (s : Shape cfg t) (d : NetDevice)
    (h : d ∈ t.devicesC1) : d.node ∈ t.cluster1 := by
  rw [← s.nodes1]
  exact List.mem_map_of_mem _ h

theorem Shape.node_mem2 {cfg : Config} {t : Topology} (s : Shape cfg t) (d : NetDevice)
    (h : d ∈ t.devicesC2) : d.node ∈ t.cluster2 := by
  rw [← s.nodes2]
  exact List.mem_map_of_mem _ h

theorem Shape.node_mem3 {cfg : Config} {t : Topology} (s : Shape cfg t) (d : NetDevice)
    (h : d ∈ t.devicesC3) : d.node = t.gatewayNode ∨ d.node ∈ t.cluster3 := by
  have := List.mem_map_of_mem NetDevice.node h
  rw [s.nodes3, s.all3, List.mem_cons] at this
  exact this

/-- The channel of a device tells its container. -/
theorem Shape.channel_iff {cfg : Config} {t : Topology} (s : Shape cfg t) (d : NetDevice)
    (hd : d ∈ t.sim.devices) :
    (d.channel = 0 ↔ d ∈ t.devicesC1) ∧ (d.channel = 1 ↔ d ∈ t.devicesC2) ∧
      (d.channel = 2 ↔ d ∈ t.devicesC3) := by
  rcases (s.mem_devices d).mp hd with h1 | h2 | h3
  · have a := s.chan1 d h1
    refine ⟨⟨fun _ => h1, fun _ => a⟩, ⟨fun e => ?_, fun m => ?_⟩, ⟨fun e => ?_, fun m => ?_⟩⟩
    · exact absurd (a.symm.trans e) (by decide)
    · exact absurd (a.symm.trans (s.chan2 d m)) (by decide)
    · exact absurd (a.symm.trans e) (by decide)
    · exact absurd (a.symm.trans (s.chan3 d m)) (by decide)
  · have a := s.chan2 d h2
    refine ⟨⟨fun e => ?_, fun m => ?_⟩, ⟨fun _ => h2, fun _ => a⟩, ⟨fun e => ?_, fun m => ?_⟩⟩
    · exact absurd (a.symm.trans e) (by decide)
    · exact absurd (a.symm.trans (s.chan1 d m)) (by decide)
    · exact absurd (a.symm.trans e) (by decide)
    · exact absurd (a.symm.trans (s.chan3 d m)) (by decide)
  · have a := s.chan3 d h3
    refine ⟨⟨fun e => ?_, fun m => ?_⟩, ⟨fun e => ?_, fun m => ?_⟩, ⟨fun _ => h3, fun _ => a⟩⟩
    · exact absurd (a.symm.trans e) (by decide)
    · exact absurd (a.symm.trans (s.chan1 d m)) (by decide)
    · exact absurd (a.symm.trans e) (by decide)
    · exact absurd (a.symm.trans (s.chan2 d m)) (by decide)

theorem Shape.same_channel_iff {cfg : Config} {t : Topology} (s : Shape cfg t)
    (d e : NetDevice) (hd : d ∈ t.sim.devices) (he : e ∈ t.sim.devices) :
    d.channel = e.channel ↔ sameContainer t d e := by
  have cd := s.channel_iff d hd
  have ce := s.channel_iff e he
  constructor
  · intro hch
    rcases (s.mem_devices d).mp hd with h1 | h2 | h3
    · exact Or.inl ⟨h1, ce.1.mp (hch ▸ s.chan1 d h1)⟩
    · exact Or.inr (Or.inl ⟨h2, ce.2.1.mp (hch ▸ s.chan2 d h2)⟩)
    · exact Or.inr (Or.inr ⟨h3, ce.2.2.mp (hch ▸ s.chan3 d h3)⟩)
  · rintro (⟨a, b⟩ | ⟨a, b⟩ | ⟨a, b⟩)
    · exact (s.chan1 d a).trans (s.chan1 e b).symm
    · exact (s.chan2 d a).trans (s.chan2 e b).symm
    · exact (s.chan3 d a).trans (s.chan3 e b).symm

/-- A link that starts in `cluster2` ends in `cluster2`. -/
theorem Shape.linked_stays_in_cluster2 {cfg : Config} {t : Topology} (s : Shape cfg t)
    (h : 1 ≤ cfg.nNodesC1) (a b : Node) (ha : a ∈ t.cluster2)
    (hl : linked t.sim a b = true) : b ∈ t.cluster2 := by
  unfold linked at hl
  simp only [List.any_eq_true, Bool.and_eq_true, decide_eq_true_eq] at hl
  obtain ⟨da, hda, db, hdb, ⟨hna, hnb⟩, hch⟩ := hl
  have hda2 : da ∈ t.devicesC2 := by
    rcases (s.mem_devices da).mp hda with h1 | h2 | h3
    · exact absurd ha (s.disjoint12 _ (hna ▸ s.node_mem1 da h1))
    · exact h2
    · rcases s.node_mem3 da h3 with hg | h3c
      · rw [hna] at hg
        exact absurd (hg ▸ ha) (s.gateway_not_mem_cluster2 h)
      · exact absurd (hna ▸ h3c) (s.disjoint23 _ ha)
  have hdb2 : db ∈ t.devicesC2 :=
    ((s.channel_iff db hdb).2.1).mp (hch ▸ s.chan2 da hda2)
  exact hnb ▸ s.node_mem2 db hdb2

theorem Shape.connected_stays_in_cluster2 {cfg : Config} {t : Topology} (s : Shape cfg t)
    (h : 1 ≤ cfg.nNodesC1) (a b : Node) (ha : a ∈ t.cluster2)
    (hc : Connected t.sim a b) : b ∈ t.cluster2 := by
  unfold Connected at hc
  induction hc with
  | refl => exact ha
  | tail _ hl ih => exact s.linked_stays_in_cluster2 h _ _ ih hl

/-- For all sizes at least 1, the echo client node `cluster2.Get (0)` and the
echo server node `cluster3.Get (0)` exist and no chain of links joins them. -/
theorem client_cut_off_from_server (cfg : Config) (h1 : 1 ≤ cfg.nNodesC1)
    (h2 : 1 ≤ cfg.nNodesC2) (h3 : 1 ≤ cfg.nNodesC3) :
    ∃ t client server, buildTopology cfg = some t ∧
      NodeContainer.Get t.cluster2 0 = some client ∧
      NodeContainer.Get t.cluster3 0 = some server ∧
      ¬ Connected t.sim client server := by
  obtain ⟨t, ht, s⟩ := buildTopology_some cfg h1
  have g2 : t.cluster2[0]? = some (cfg.nNodesC1 + 0) := by
    rw [s.cluster2]
    exact getElem?_freshNodes _ _ 0 h2
  have g3 : t.cluster3[0]? = some (cfg.nNodesC1 + cfg.nNodesC2 + 0) := by
    rw [s.cluster3]
    exact getElem?_freshNodes _ _ 0 h3
  refine ⟨t, _, _, ht, g2, g3, ?_⟩
  intro hc
  have m2 : cfg.nNodesC1 + 0 ∈ t.cluster2 := List.getElem?_mem g2
  have m3 : cfg.nNodesC1 + cfg.nNodesC2 + 0 ∈ t.cluster3 := List.getElem?_mem g3
  exact s.disjoint23 _ (s.connected_stays_in_cluster2 h1 _ _ m2 hc) m3

theorem Shape.has_device_iff {cfg : Config} {t : Topology} (s : Shape cfg t)
    (h : 1 ≤ cfg.nNodesC1) (n : Node) :
    (∃ d ∈ t.sim.devices, d.node = n) ↔ n ∈ t.cluster1 ∨ n ∈ t.cluster2 ∨ n ∈ t.cluster3 := by
  constructor
  · rintro ⟨d, hd, rfl⟩
    rcases (s.mem_devices d).mp hd with h1 | h2 | h3
    · exact Or.inl (s.node_mem1 d h1)
    · exact Or.inr (Or.inl (s.node_mem2 d h2))
    · rcases s.node_mem3 d h3 with hg | hc
      · exact Or.inl (hg ▸ s.gateway_mem_cluster1 h)
      · exact Or.inr (Or.inr hc)
  · rintro (h1 | h2 | h3)
    · rw [← s.nodes1] at h1
      obtain ⟨d, hd, rfl⟩ := List.mem_map.mp h1
      exact ⟨d, (s.mem_devices d).mpr (Or.inl hd), rfl⟩
    · rw [← s.nodes2] at h2
      obtain ⟨d, hd, rfl⟩ := List.mem_map.mp h2
      exact ⟨d, (s.mem_devices d).mpr (Or.inr (Or.inl hd)), rfl⟩
    · have h3a : n ∈ t.cluster3All := by
        rw [s.all3]
        exact List.mem_cons_of_mem _ h3
      rw [← s.nodes3] at h3a
      obtain ⟨d, hd, rfl⟩ := List.mem_map.mp h3a
      exact ⟨d, (s.mem_devices d).mpr (Or.inr (Or.inr hd)), rfl⟩

theorem Shape.nodup_clusters {cfg : Config} {t : Topology} (s : Shape cfg t) :
    (t.cluster1 ++ t.cluster2 ++ t.cluster3).Nodup := by
  rw [List.nodup_append, List.nodup_append]
  refine ⟨⟨?_, ?_, ?_⟩, ?_, ?_⟩
  · rw [s.cluster1]
    exact nodup_freshNodes _ _
  · rw [s.cluster2]
    exact nodup_freshNodes _ _
  · intro n h1 h2
    exact s.disjoint12 n h1 h2
  · rw [s.cluster3]
    exact nodup_freshNodes _ _
  · intro n h12 h3
    rcases List.mem_append.mp h12 with h1 | h2
    · exact s.disjoint13 n h1 h3
    · exact s.disjoint23 n h2 h3

theorem installInternet_ipv4Nodes (t : Topology) :
    (installInternet t).sim.ipv4Nodes =
      t.sim.ipv4Nodes ++ t.cluster1 ++ t.cluster2 ++ t.cluster3 := by
  simp [installInternet, InternetStackHelper.Install]

theorem Shape.installInternet {cfg : Config} {t : Topology} (s : Shape cfg t) :
    Shape cfg (installInternet t) :=
  { cluster1 := s.cluster1
    cluster2 := s.cluster2
    cluster3 := s.cluster3
    gateway := s.gateway
    gateway_zero := s.gateway_zero
    all3 := s.all3
    nodes1 := s.nodes1
    nodes2 := s.nodes2
    nodes3 := s.nodes3
    chan1 := s.chan1
    chan2 := s.chan2
    chan3 := s.chan3
    devices := s.devices
    nNodes := s.nNodes
    nChannels := s.nChannels }

/-! ## Facts about address assignment -/

theorem SetBase_subnet1 :
    Ipv4AddressHelper.SetBase (Ipv4Address 10 1 1 0) (Ipv4Address 255 255 255 0) =
      some (subnetHelper 1) := by decide

theorem SetBase_subnet2 :
    Ipv4AddressHelper.SetBase (Ipv4Address 10 1 2 0) (Ipv4Address 255 255 255 0) =
      some (subnetHelper 2) := by decide

theorem SetBase_subnet3 :
    Ipv4AddressHelper.SetBase (Ipv4Address 10 1 3 0) (Ipv4Address 255 255 255 0) =
      some (subnetHelper 3) := by decide

theorem shiftLeft_or_host (n a : Nat) (ha : a < 256) : (n <<< 8) ||| a = n * 256 + a := by
  rw [Nat.shiftLeft_eq, Nat.mul_comm n (2 ^ 8), ← Nat.mul_add_lt_is_or (by simpa using ha) n]

/-- Within the pool, `Assign` gives the devices consecutive addresses. -/
theorem Assign_some (sim : Simulation) (ds : NetDeviceContainer) :
    ∀ h : Ipv4AddressHelper, h.shift = 8 → h.max = 254 →
      (∀ d ∈ ds, d.node ∈ sim.ipv4Nodes) → h.address + ds.length ≤ 255 →
      ∃ r, Ipv4AddressHelper.Assign sim h ds = some r ∧
        r.map Ipv4Interface.device = ds ∧
        r.map Ipv4Interface.addr = freshNodes (h.network * 256 + h.address) ds.length ∧
        ∀ e ∈ r, e.mask = h.mask := by
  induction ds with
  | nil =>
    intro h _ _ _ _
    exact ⟨[], rfl, rfl, rfl, by simp⟩
  | cons d ds ih =>
    intro h hs hm hst hlen
    have hd : d.node ∈ sim.ipv4Nodes := hst d (List.mem_cons_self _ _)
    rw [List.length_cons] at hlen
    have ha : h.address ≤ h.max := by rw [hm]; omega
    obtain ⟨r, hr, hdev, haddr, hmask⟩ :=
      ih { h with address := h.address + 1 } hs hm
        (fun x hx => hst x (List.mem_cons_of_mem _ hx)) (by simp only []; omega)
    refine ⟨{ device := d, addr := (h.network <<< h.shift) ||| h.address, mask := h.mask } :: r,
      ?_, ?_, ?_, ?_⟩
    · simp only [Ipv4AddressHelper.Assign, hd, if_true, Ipv4AddressHelper.NewAddress, ha, hr]
    · simp [hdev]
    · rw [List.map_cons, List.length_cons, freshNodes, haddr]
      dsimp only
      rw [hs, shiftLeft_or_host _ _ (by omega), Nat.add_assoc]
    · intro e he
      rcases List.mem_cons.mp he with rfl | he
      · rfl
      · exact hmask e he

/-- Beyond the pool, `Assign` aborts. -/
theorem Assign_none (sim : Simulation) (ds : NetDeviceContainer) :
    ∀ h : Ipv4AddressHelper, h.max = 254 → 255 - h.address < ds.length →
      Ipv4AddressHelper.Assign sim h ds = none := by
  induction ds with
  | nil =>
    intro h _ hlen
    simp at hlen
  | cons d ds ih =>
    intro h hm hlen
    rw [List.length_cons] at hlen
    by_cases hd : d.node ∈ sim.ipv4Nodes
    · by_cases ha : h.address ≤ h.max
      · have hrec := ih { h with address := h.address + 1 } hm (by simp only []; omega)
        simp only [Ipv4AddressHelper.Assign, hd, if_true, Ipv4AddressHelper.NewAddress, ha, hrec]
      · simp only [Ipv4AddressHelper.Assign, hd, if_true, Ipv4AddressHelper.NewAddress, ha,
          if_false]
    · simp only [Ipv4AddressHelper.Assign, hd, if_false]

theorem assignAddresses_none_of_C1 (t : Topology)
    (h : Ipv4AddressHelper.Assign t.sim (subnetHelper 1) t.devicesC1 = none) :
    assignAddresses t = none := by
  simp only [assignAddresses, SetBase_subnet1, h]

theorem assignAddresses_none_of_C2 (t : Topology)
    (h : Ipv4AddressHelper.Assign t.sim (subnetHelper 2) t.devicesC2 = none) :
    assignAddresses t = none := by
  simp only [assignAddresses, SetBase_subnet1, SetBase_subnet2, h]
  split <;> rfl

theorem assignAddresses_none_of_C3 (t : Topology)
    (h : Ipv4AddressHelper.Assign t.sim (subnetHelper 3) t.devicesC3 = none) :
    assignAddresses t = none := by
  simp only [assignAddresses, SetBase_subnet1, SetBase_subnet2, SetBase_subnet3, h]
  split
  · rfl
  · split <;> rfl

theorem Shape.length1 {cfg : Config} {t : Topology} (s : Shape cfg t) :
    t.devicesC1.length = cfg.nNodesC1 := by
  rw [← List.length_map t.devicesC1 NetDevice.node, s.nodes1, s.cluster1, length_freshNodes]

theorem Shape.length2 {cfg : Config} {t : Topology} (s : Shape cfg t) :
    t.devicesC2.length = cfg.nNodesC2 := by
  rw [← List.length_map t.devicesC2 NetDevice.node, s.nodes2, s.cluster2, length_freshNodes]

theorem Shape.length3 {cfg : Config} {t : Topology} (s : Shape cfg t) :
    t.devicesC3.length = cfg.nNodesC3 + 1 := by
  rw [← List.length_map t.devicesC3 NetDevice.node, s.nodes3, s.all3, List.length_cons,
    s.cluster3, length_freshNodes]

theorem buildNetwork_some (cfg : Config) (h1 : 1 ≤ cfg.nNodesC1) (b1 : cfg.nNodesC1 ≤ 254)
    (b2 : cfg.nNodesC2 ≤ 254) (b3 : cfg.nNodesC3 ≤ 253) :
    ∃ a, buildNetwork cfg = some a ∧ Numbered cfg a := by
  obtain ⟨t, ht, s⟩ := buildTopology_some cfg h1
  have su : Shape cfg (installInternet t) := s.installInternet
  have hi : ∀ n, n ∈ (installInternet t).sim.ipv4Nodes ↔
      n ∈ t.cluster1 ∨ n ∈ t.cluster2 ∨ n ∈ t.cluster3 := by
    intro n
    rw [installInternet_ipv4Nodes, buildTopology_ipv4Nodes cfg t ht]
    simp [or_assoc]
  have st1 : ∀ d ∈ (installInternet t).devicesC1, d.node ∈ (installInternet t).sim.ipv4Nodes :=
    fun d hd => (hi _).mpr (Or.inl (su.node_mem1 d hd))
  have st2 : ∀ d ∈ (installInternet t).devicesC2, d.node ∈ (installInternet t).sim.ipv4Nodes :=
    fun d hd => (hi _).mpr (Or.inr (Or.inl (su.node_mem2 d hd)))
  have st3 : ∀ d ∈ (installInternet t).devicesC3, d.node ∈ (installInternet t).sim.ipv4Nodes := by
    intro d hd
    rcases su.node_mem3 d hd with hg | hc
    · exact (hi _).mpr (Or.inl (hg ▸ s.gateway_mem_cluster1 h1))
    · exact (hi _).mpr (Or.inr (Or.inr hc))
  obtain ⟨r1, hr1, d1, a1, m1⟩ := Assign_some (installInternet t).sim
    (installInternet t).devicesC1 (subnetHelper 1) rfl rfl st1
    (by rw [su.length1]; simp only [subnetHelper]; omega)
  obtain ⟨r2, hr2, d2, a2, m2⟩ := Assign_some (installInternet t).sim
    (installInternet t).devicesC2 (subnetHelper 2) rfl rfl st2
    (by rw [su.length2]; simp only [subnetHelper]; omega)
  obtain ⟨r3, hr3, d3, a3, m3⟩ := Assign_some (installInternet t).sim
    (installInternet t).devicesC3 (subnetHelper 3) rfl rfl st3
    (by rw [su.length3]; simp only [subnetHelper]; omega)
  refine ⟨{ topo := installInternet t, ifacesC1 := r1, ifacesC2 := r2, ifacesC3 := r3 }, ?_, ?_⟩
  · simp only [buildNetwork, ht, assignAddresses, SetBase_subnet1, SetBase_subnet2,
      SetBase_subnet3, hr1, hr2, hr3]
  · rw [su.length1] at a1
    rw [su.length2] at a2
    rw [su.length3] at a3
    exact
      { shape := su
        dev1 := d1
        dev2 := d2
        dev3 := d3
        addr1 := a1
        addr2 := a2
        addr3 := a3
        mask1 := m1
        mask2 := m2
        mask3 := m3 }

/-- Outside the bounds no network comes out of sections 1 to 5. -/
theorem buildNetwork_none (cfg : Config)
    (h : cfg.nNodesC1 = 0 ∨ 254 < cfg.nNodesC1 ∨ 254 < cfg.nNodesC2 ∨ 253 < cfg.nNodesC3) :
    buildNetwork cfg = none := by
  by_cases h0 : cfg.nNodesC1 = 0
  · simp only [buildNetwork, buildTopology_none cfg h0]
  · obtain ⟨t, ht, s⟩ := buildTopology_some cfg (by omega)
    have su : Shape cfg (installInternet t) := s.installInternet
    simp only [buildNetwork, ht]
    rcases h with h | h | h | h
    · exact absurd h h0
    · exact assignAddresses_none_of_C1 _
        (Assign_none _ _ (subnetHelper 1) rfl (by rw [su.length1]; simp only [subnetHelper]; omega))
    · exact assignAddresses_none_of_C2 _
        (Assign_none _ _ (subnetHelper 2) rfl (by rw [su.length2]; simp only [subnetHelper]; omega))
    · exact assignAddresses_none_of_C3 _
        (Assign_none _ _ (subnetHelper 3) rfl (by rw [su.length3]; simp only [subnetHelper]; omega))

theorem addr_of_getElem? (l : Ipv4InterfaceContainer) (base n i : Nat) (e : Ipv4Interface)
    (h : l.map Ipv4Interface.addr = freshNodes base n) (he : l[i]? = some e) :
    e.addr = base + i := by
  have hlen : l.length = n := by
    rw [← List.length_map l Ipv4Interface.addr, h, length_freshNodes]
  have hi : i < n := by
    rw [← hlen]
    exact (List.getElem?_eq_some_iff.mp he).1
  have h1 : (l.map Ipv4Interface.addr)[i]? = some e.addr := by
    rw [List.getElem?_map, he]
    rfl
  rw [h, getElem?_freshNodes n base i hi] at h1
  exact (Option.some.inj h1).symm

theorem device_of_getElem? (l : Ipv4InterfaceContainer) (devs : NetDeviceContainer) (i : Nat)
    (e : Ipv4Interface) (h : l.map Ipv4Interface.device = devs) (he : l[i]? = some e) :
    devs[i]? = some e.device := by
  rw [← h, List.getElem?_map, he]
  rfl

theorem ifaces_filter_nil (l : Ipv4InterfaceContainer) (g : Node)
    (h : g ∉ (l.map Ipv4Interface.device).map NetDevice.node) :
    l.filter (fun e => e.device.node = g) = [] := by
  rw [List.filter_eq_nil_iff]
  intro e he
  simp only [decide_eq_true_eq]
  intro hg
  exact h (List.mem_map.mpr ⟨e.device, List.mem_map.mpr ⟨e, he, rfl⟩, hg⟩)

theorem ifaces_filter_head (l : Ipv4InterfaceContainer) (g : Node) (rest : List Node)
    (base n : Nat) (h : (l.map Ipv4Interface.device).map NetDevice.node = g :: rest)
    (hrest : g ∉ rest) (haddr : l.map Ipv4Interface.addr = freshNodes base n) :
    (l.filter (fun e => e.device.node = g)).map Ipv4Interface.addr = [base] := by
  cases l with
  | nil => simp at h
  | cons e r =>
    simp only [List.map_cons, List.cons.injEq] at h
    have hz : r.filter (fun e => e.device.node = g) = [] :=
      ifaces_filter_nil r g (by rw [h.2]; exact hrest)
    have hb : e.addr = base := by
      have := addr_of_getElem? (e :: r) base n 0 e haddr (by simp)
      simpa using this
    simp [List.filter_cons, h.1, hz, hb]

/-- Whatever the state of the pool, a completed `Assign` has made one
interface per device, in device order. -/
theorem Assign_device (sim : Simulation) (ds : NetDeviceContainer) :
    ∀ (h : Ipv4AddressHelper) (r : Ipv4InterfaceContainer),
      Ipv4AddressHelper.Assign sim h ds = some r → r.map Ipv4Interface.device = ds := by
  induction ds with
  | nil =>
    intro h r hr
    simp only [Ipv4AddressHelper.Assign, Option.some.injEq] at hr
    rw [← hr]
    rfl
  | cons d ds ih =>
    intro h r hr
    simp only [Ipv4AddressHelper.Assign] at hr
    split at hr
    · split at hr
      · exact absurd hr (by simp)
      · split at hr
        · exact absurd hr (by simp)
        · rename_i rest hrest
          simp only [Option.some.injEq] at hr
          rw [← hr, List.map_cons, ih _ _ hrest]
    · exact absurd hr (by simp)

theorem assignAddresses_inv (t : Topology) (a : Addressed) (h : assignAddresses t = some a) :
    a.topo = t ∧ a.ifacesC1.map Ipv4Interface.device = t.devicesC1 ∧
      a.ifacesC2.map Ipv4Interface.device = t.devicesC2 ∧
      a.ifacesC3.map Ipv4Interface.device = t.devicesC3 := by
  simp only [assignAddresses, SetBase_subnet1, SetBase_subnet2, SetBase_subnet3] at h
  split at h
  · exact absurd h (by simp)
  · rename_i r1 h1
    split at h
    · exact absurd h (by simp)
    · rename_i r2 h2
      split at h
      · exact absurd h (by simp)
      · rename_i r3 h3
        simp only [Option.some.injEq] at h
        rw [← h]
        exact ⟨rfl, Assign_device _ _ _ _ h1, Assign_device _ _ _ _ h2,
          Assign_device _ _ _ _ h3⟩

/-- Every network that comes out of sections 1 to 5 sits on a topology of
the expected shape and has one `ifacesC3` entry per `devicesC3` device. -/
theorem buildNetwork_inv (cfg : Config) (a : Addressed) (h1 : 1 ≤ cfg.nNodesC1)
    (h : buildNetwork cfg = some a) :
    Shape cfg a.topo ∧ a.ifacesC3.map Ipv4Interface.device = a.topo.devicesC3 := by
  obtain ⟨t, ht, s⟩ := buildTopology_some cfg h1
  simp only [buildNetwork, ht] at h
  obtain ⟨htopo, _, _, h3⟩ := assignAddresses_inv _ _ h
  rw [htopo]
  exact ⟨s.installInternet, h3⟩

theorem Shape.client_aimed_at_server {cfg : Config} {a : Addressed} (s : Shape cfg a.topo)
    (dev3 : a.ifacesC3.map Ipv4Interface.device = a.topo.devicesC3)
    (h1 : 1 ≤ cfg.nNodesC1) (h3 : 1 ≤ cfg.nNodesC3) : ClientAimedAtServer cfg a := by
  have hnodes : a.ifacesC3.map (fun f => f.device.node) =
      a.topo.gatewayNode :: a.topo.cluster3 := by
    rw [← s.all3, ← s.nodes3, ← dev3, List.map_map]
    rfl
  have hlen : a.ifacesC3.length = cfg.nNodesC3 + 1 := by
    rw [← List.length_map a.ifacesC3 Ipv4Interface.device, dev3, s.length3]
  have hidx : ∀ i, i < cfg.nNodesC3 → ∃ ei, a.ifacesC3[i + 1]? = some ei ∧
      a.topo.devicesC3[i + 1]? = some ei.device ∧
      NodeContainer.Get a.topo.cluster3 i = some ei.device.node := by
    intro i hi
    obtain ⟨ei, hei⟩ : ∃ ei, a.ifacesC3[i + 1]? = some ei :=
      ⟨a.ifacesC3[i + 1], List.getElem?_eq_getElem (by omega)⟩
    refine ⟨ei, hei, device_of_getElem? _ _ _ _ dev3 hei, ?_⟩
    have hm : (a.ifacesC3.map (fun f => f.device.node))[i + 1]? = some ei.device.node := by
      rw [List.getElem?_map, hei]
      rfl
    rw [hnodes, List.getElem?_cons_succ] at hm
    exact hm
  obtain ⟨e, he, hdev, hsrv⟩ := hidx 0 h3
  have hnd : (a.ifacesC3.map (fun f => f.device.node)).Nodup := by
    rw [hnodes, ← s.all3]
    exact s.nodup_cluster3All h1
  refine ⟨e.device.node, e, hsrv, he, ?_, hdev, rfl, ?_, ?_, hidx⟩
  · simp [echoClientRemote, Ipv4InterfaceContainer.GetAddress, he]
  · intro f hf hfe
    exact List.inj_on_of_nodup_map hnd hf (List.getElem?_mem he) hfe
  · obtain ⟨e0, he0⟩ : ∃ e0, a.ifacesC3[0]? = some e0 :=
      ⟨a.ifacesC3[0], List.getElem?_eq_getElem (by omega)⟩
    refine ⟨e0, he0, device_of_getElem? _ _ _ _ dev3 he0, ?_⟩
    have hm : (a.ifacesC3.map (fun f => f.device.node))[0]? = some e0.device.node := by
      rw [List.getElem?_map, he0]
      rfl
    rw [hnodes] at hm
    simpa using hm.symm

/-! ## Claims -/

/-- C2: for every configuration with `nNodesC1 >= 1` the topology is built,
the gateway node is `cluster1.Get (0)`, it is in `cluster1` and is the first
node of `cluster3All`, it is in neither `cluster2` nor `cluster3`, its Wi-Fi
devices are exactly `devicesC1[0]` and `devicesC3[0]` (two distinct devices),
every other node has exactly one Wi-Fi device, and the topology has
`nNodesC1 + nNodesC2 + nNodesC3` nodes and one more (distinct) Wi-Fi devices. -/
theorem gateway_is_the_shared_node (cfg : Config) (h : 1 ≤ cfg.nNodesC1) :
    ∃ t, buildTopology cfg = some t ∧
      NodeContainer.Get t.cluster1 0 = some t.gatewayNode ∧
      t.gatewayNode ∈ t.cluster1 ∧
      NodeContainer.Get t.cluster3All 0 = some t.gatewayNode ∧
      t.gatewayNode ∉ t.cluster2 ∧
      t.gatewayNode ∉ t.cluster3 ∧
      (∃ d1 d3, t.devicesC1[0]? = some d1 ∧ t.devicesC3[0]? = some d3 ∧ d1 ≠ d3 ∧
        t.sim.devicesOf t.gatewayNode = [d1, d3]) ∧
      (∀ n, n < t.sim.nNodes → n ≠ t.gatewayNode → (t.sim.devicesOf n).length = 1) ∧
      t.sim.nNodes = cfg.nNodesC1 + cfg.nNodesC2 + cfg.nNodesC3 ∧
      t.sim.devices.Nodup ∧
      t.sim.devices.length = cfg.nNodesC1 + cfg.nNodesC2 + cfg.nNodesC3 + 1 := by
  obtain ⟨t, ht, s⟩ := buildTopology_some cfg h
  refine ⟨t, ht, s.gateway, s.gateway_mem_cluster1 h, ?_, s.gateway_not_mem_cluster2 h,
    s.gateway_not_mem_cluster3 h, s.devicesOf_gateway h, ?_, s.nNodes, s.devices_nodup h,
    s.devices_length⟩
  · simp [s.all3, NodeContainer.Get]
  · intro n hn hg
    rw [s.devicesOf_length h n, s.all3]
    rcases (s.mem_clusters n).mp hn with h1 | h2 | h3
    · have a := s.disjoint12 n h1
      have b := s.disjoint13 n h1
      simp [h1, a, b, hg]
    · have a : n ∉ t.cluster1 := fun h1 => s.disjoint12 n h1 h2
      have b := s.disjoint23 n h2
      simp [h2, a, b, hg]
    · have a : n ∉ t.cluster1 := fun h1 => s.disjoint13 n h1 h3
      have b : n ∉ t.cluster2 := fun h2 => s.disjoint23 n h2 h3
      simp [h3, a, b, hg]

/-- C2 at the default sizes 3, 3 and 2. -/
theorem gateway_is_the_shared_node_witness :
    ∃ t, buildTopology Config.initial = some t ∧
      NodeContainer.Get t.cluster1 0 = some t.gatewayNode ∧
      t.gatewayNode ∈ t.cluster1 ∧
      NodeContainer.Get t.cluster3All 0 = some t.gatewayNode ∧
      t.gatewayNode ∉ t.cluster2 ∧
      t.gatewayNode ∉ t.cluster3 ∧
      (∃ d1 d3, t.devicesC1[0]? = some d1 ∧ t.devicesC3[0]? = some d3 ∧ d1 ≠ d3 ∧
        t.sim.devicesOf t.gatewayNode = [d1, d3]) ∧
      (∀ n, n < t.sim.nNodes → n ≠ t.gatewayNode → (t.sim.devicesOf n).length = 1) ∧
      t.sim.nNodes = 3 + 3 + 2 ∧
      t.sim.devices.Nodup ∧
      t.sim.devices.length = 3 + 3 + 2 + 1 :=
  gateway_is_the_shared_node Config.initial (by decide)

/-- C3: in every topology `main` builds (one is built as soon as
`nNodesC1 >= 1`), two Wi-Fi devices are attached to the same channel exactly
when they belong to the same container among `devicesC1`, `devicesC2` and
`devicesC3`; every device is in one of the three containers; the devices of
`devicesC1` are on channel 0 (made by the first `channel.Create ()`), those
of `devicesC2` on channel 1 (the second) and those of `devicesC3` on channel
2 (the third), and these three channels, the only ones created, are pairwise
distinct.  The containers are those of the clusters: `cluster1`, `cluster2`
and `cluster3` hold `nNodesC1`, `nNodesC2` and `nNodesC3` nodes, `cluster3All`
is the gateway node followed by `cluster3`, the devices of `devicesC1`,
`devicesC2`, `devicesC3` sit one by one, in order, on the nodes of `cluster1`,
`cluster2`, `cluster3All`, so every node of a cluster carries a device on the
channel of its cluster. -/
theorem one_channel_per_cluster (cfg : Config) (h : 1 ≤ cfg.nNodesC1) :
    ∃ t, buildTopology cfg = some t ∧
      (∀ d ∈ t.sim.devices, ∀ e ∈ t.sim.devices,
        (d.channel = e.channel ↔ sameContainer t d e)) ∧
      (∀ d, d ∈ t.sim.devices ↔ d ∈ t.devicesC1 ∨ d ∈ t.devicesC2 ∨ d ∈ t.devicesC3) ∧
      (∃ ch1 ch2 ch3 : Channel, ch1 = 0 ∧ ch2 = 1 ∧ ch3 = 2 ∧
        (∀ d ∈ t.devicesC1, d.channel = ch1) ∧
        (∀ d ∈ t.devicesC2, d.channel = ch2) ∧
        (∀ d ∈ t.devicesC3, d.channel = ch3) ∧
        ch1 ≠ ch2 ∧ ch1 ≠ ch3 ∧ ch2 ≠ ch3) ∧
      t.sim.nChannels = 3 ∧
      t.cluster1.length = cfg.nNodesC1 ∧
      t.cluster2.length = cfg.nNodesC2 ∧
      t.cluster3.length = cfg.nNodesC3 ∧
      t.cluster3All = t.gatewayNode :: t.cluster3 ∧
      t.devicesC1.map NetDevice.node = t.cluster1 ∧
      t.devicesC2.map NetDevice.node = t.cluster2 ∧
      t.devicesC3.map NetDevice.node = t.cluster3All ∧
      (∀ n ∈ t.cluster1, ∃ d ∈ t.sim.devices, d.node = n ∧ d.channel = 0) ∧
      (∀ n ∈ t.cluster2, ∃ d ∈ t.sim.devices, d.node = n ∧ d.channel = 1) ∧
      (∀ n ∈ t.cluster3All, ∃ d ∈ t.sim.devices, d.node = n ∧ d.channel = 2) := by
  obtain ⟨t, ht, s⟩ := buildTopology_some cfg h
  have on1 : ∀ n ∈ t.cluster1, ∃ d ∈ t.sim.devices, d.node = n ∧ d.channel = 0 := by
    intro n hn
    rw [← s.nodes1] at hn
    obtain ⟨d, hd, hdn⟩ := List.mem_map.mp hn
    exact ⟨d, (s.mem_devices d).mpr (Or.inl hd), hdn, s.chan1 d hd⟩
  have on2 : ∀ n ∈ t.cluster2, ∃ d ∈ t.sim.devices, d.node = n ∧ d.channel = 1 := by
    intro n hn
    rw [← s.nodes2] at hn
    obtain ⟨d, hd, hdn⟩ := List.mem_map.mp hn
    exact ⟨d, (s.mem_devices d).mpr (Or.inr (Or.inl hd)), hdn, s.chan2 d hd⟩
  have on3 : ∀ n ∈ t.cluster3All, ∃ d ∈ t.sim.devices, d.node = n ∧ d.channel = 2 := by
    intro n hn
    rw [← s.nodes3] at hn
    obtain ⟨d, hd, hdn⟩ := List.mem_map.mp hn
    exact ⟨d, (s.mem_devices d).mpr (Or.inr (Or.inr hd)), hdn, s.chan3 d hd⟩
  refine ⟨t, ht, fun d hd e he => s.same_channel_iff d e hd he, s.mem_devices, ?_, s.nChannels,
    ?_, ?_, ?_, s.all3, s.nodes1, s.nodes2, s.nodes3, on1, on2, on3⟩
  · exact ⟨0, 1, 2, rfl, rfl, rfl, s.chan1, s.chan2, s.chan3, by decide, by decide, by decide⟩
  · rw [s.cluster1, length_freshNodes]
  · rw [s.cluster2, length_freshNodes]
  · rw [s.cluster3, length_freshNodes]

/-- C3 at the default sizes 3, 3 and 2. -/
theorem one_channel_per_cluster_witness :
    ∃ t, buildTopology Config.initial = some t ∧
      (∀ d ∈ t.sim.devices, ∀ e ∈ t.sim.devices,
        (d.channel = e.channel ↔ sameContainer t d e)) ∧
      (∀ d, d ∈ t.sim.devices ↔ d ∈ t.devicesC1 ∨ d ∈ t.devicesC2 ∨ d ∈ t.devicesC3) ∧
      (∃ ch1 ch2 ch3 : Channel, ch1 = 0 ∧ ch2 = 1 ∧ ch3 = 2 ∧
        (∀ d ∈ t.devicesC1, d.channel = ch1) ∧
        (∀ d ∈ t.devicesC2, d.channel = ch2) ∧
        (∀ d ∈ t.devicesC3, d.channel = ch3) ∧
        ch1 ≠ ch2 ∧ ch1 ≠ ch3 ∧ ch2 ≠ ch3) ∧
      t.sim.nChannels = 3 ∧
      t.cluster1.length = 3 ∧
      t.cluster2.length = 3 ∧
      t.cluster3.length = 2 ∧
      t.cluster3All = t.gatewayNode :: t.cluster3 ∧
      t.devicesC1.map NetDevice.node = t.cluster1 ∧
      t.devicesC2.map NetDevice.node = t.cluster2 ∧
      t.devicesC3.map NetDevice.node = t.cluster3All ∧
      (∀ n ∈ t.cluster1, ∃ d ∈ t.sim.devices, d.node = n ∧ d.channel = 0) ∧
      (∀ n ∈ t.cluster2, ∃ d ∈ t.sim.devices, d.node = n ∧ d.channel = 1) ∧
      (∀ n ∈ t.cluster3All, ∃ d ∈ t.sim.devices, d.node = n ∧ d.channel = 2) :=
  one_channel_per_cluster Config.initial (by decide)

/-- C4, evaluated on the code: with the default sizes 3, 3 and 2 the echo
client node `cluster2.Get (0)` is node 3, the echo server node
`cluster3.Get (0)` is node 6, the nodes that can be reached from node 3 in
the link graph of the built topology are nodes 3, 4 and 5 (`cluster2`) only,
and node 6 is not reachable from node 3. -/
theorem default_client_not_connected_to_server :
    ∃ t, buildTopology Config.initial = some t ∧
      NodeContainer.Get t.cluster2 0 = some 3 ∧
      NodeContainer.Get t.cluster3 0 = some 6 ∧
      (∀ b, Connected t.sim 3 b → b = 3 ∨ b = 4 ∨ b = 5) ∧
      ¬ Connected t.sim 3 6 := by
  obtain ⟨t, ht, s⟩ := buildTopology_some Config.initial (by decide)
  have c2 : t.cluster2 = [3, 4, 5] := by
    rw [s.cluster2]
    rfl
  have c3 : t.cluster3 = [6, 7] := by
    rw [s.cluster3]
    rfl
  have hreach : ∀ b, Connected t.sim 3 b → b = 3 ∨ b = 4 ∨ b = 5 := by
    intro b hb
    have hm := s.connected_stays_in_cluster2 (by decide) 3 b (by rw [c2]; decide) hb
    rw [c2] at hm
    simpa using hm
  refine ⟨t, ht, by rw [c2]; rfl, by rw [c3]; rfl, hreach, ?_⟩
  intro h6
  rcases hreach 6 h6 with h | h | h <;> exact absurd h (by decide)

/-- C6: in every topology `main` builds (one is built as soon as
`nNodesC1 >= 1`), the nodes given to the three `stack.Install` calls are
`cluster1`, `cluster2` and `cluster3` in this order; the three containers are
pairwise disjoint, so no node gets a stack twice; a node gets a stack exactly
when it carries a Wi-Fi device; every node of the simulation gets exactly one
stack; and the gateway node is in `cluster1` and in neither `cluster2` nor
`cluster3`. -/
theorem stack_on_every_node_once (cfg : Config) (h : 1 ≤ cfg.nNodesC1) :
    ∃ t, buildTopology cfg = some t ∧
      (installInternet t).sim.ipv4Nodes = t.cluster1 ++ t.cluster2 ++ t.cluster3 ∧
      (∀ n ∈ t.cluster1, n ∉ t.cluster2) ∧
      (∀ n ∈ t.cluster1, n ∉ t.cluster3) ∧
      (∀ n ∈ t.cluster2, n ∉ t.cluster3) ∧
      (installInternet t).sim.ipv4Nodes.Nodup ∧
      (∀ n, n ∈ (installInternet t).sim.ipv4Nodes ↔
        ∃ d ∈ (installInternet t).sim.devices, d.node = n) ∧
      (∀ n, n < (installInternet t).sim.nNodes →
        (installInternet t).sim.ipv4Nodes.count n = 1) ∧
      t.gatewayNode ∈ t.cluster1 ∧ t.gatewayNode ∉ t.cluster2 ∧
      t.gatewayNode ∉ t.cluster3 := by
  obtain ⟨t, ht, s⟩ := buildTopology_some cfg h
  have hi : (installInternet t).sim.ipv4Nodes = t.cluster1 ++ t.cluster2 ++ t.cluster3 := by
    rw [installInternet_ipv4Nodes, buildTopology_ipv4Nodes cfg t ht]
    simp
  have hmem : ∀ n, n ∈ (installInternet t).sim.ipv4Nodes ↔
      n ∈ t.cluster1 ∨ n ∈ t.cluster2 ∨ n ∈ t.cluster3 := by
    intro n
    rw [hi, List.mem_append, List.mem_append, or_assoc]
  have hnd : (installInternet t).sim.ipv4Nodes.Nodup := by
    rw [hi]
    exact s.nodup_clusters
  refine ⟨t, ht, hi, s.disjoint12, s.disjoint13, s.disjoint23, hnd, ?_, ?_,
    s.gateway_mem_cluster1 h, s.gateway_not_mem_cluster2 h, s.gateway_not_mem_cluster3 h⟩
  · intro n
    rw [hmem n]
    exact (s.installInternet.has_device_iff h n).symm
  · intro n hn
    exact List.count_eq_one_of_mem hnd ((hmem n).mpr ((s.installInternet.mem_clusters n).mp hn))

/-- C6 at the default sizes 3, 3 and 2. -/
theorem stack_on_every_node_once_witness :
    ∃ t, buildTopology Config.initial = some t ∧
      (installInternet t).sim.ipv4Nodes = t.cluster1 ++ t.cluster2 ++ t.cluster3 ∧
      (∀ n ∈ t.cluster1, n ∉ t.cluster2) ∧
      (∀ n ∈ t.cluster1, n ∉ t.cluster3) ∧
      (∀ n ∈ t.cluster2, n ∉ t.cluster3) ∧
      (installInternet t).sim.ipv4Nodes.Nodup ∧
      (∀ n, n ∈ (installInternet t).sim.ipv4Nodes ↔
        ∃ d ∈ (installInternet t).sim.devices, d.node = n) ∧
      (∀ n, n < (installInternet t).sim.nNodes →
        (installInternet t).sim.ipv4Nodes.count n = 1) ∧
      t.gatewayNode ∈ t.cluster1 ∧ t.gatewayNode ∉ t.cluster2 ∧
      t.gatewayNode ∉ t.cluster3 :=
  stack_on_every_node_once Config.initial (by decide)

/-- C1: with no flag on the command line, parsing leaves the five variables
at `false`, 3, 3, 2 and 30; `main` runs to `Simulator::Run` with exactly
these values, `cluster1`, `cluster2` and `cluster3` hold 3, 3 and 2 nodes,
the course-change callback is not connected and the simulation is stopped at
30 seconds. -/
theorem no_flags_gives_defaults :
    CommandLine.Parse Config.initial [] =
        some { useCourseChangeCallback := false, nNodesC1 := 3, nNodesC2 := 3,
               nNodesC3 := 2, stopTime := 30 } ∧
      ∃ r, main [] = some r ∧
        r.cfg = { useCourseChangeCallback := false, nNodesC1 := 3, nNodesC2 := 3,
                  nNodesC3 := 2, stopTime := 30 } ∧
        r.net.topo.cluster1.length = 3 ∧
        r.net.topo.cluster2.length = 3 ∧
        r.net.topo.cluster3.length = 2 ∧
        r.net.topo.sim.nNodes = 8 ∧
        r.courseChangeConnected = false ∧
        r.simulatorStop = 30 := by
  refine ⟨rfl, ?_⟩
  have hsome : (main []).isSome = true := by decide
  obtain ⟨r, hr⟩ := Option.isSome_iff_exists.mp hsome
  have hall : (main []).all (fun r =>
      decide (r.cfg = { useCourseChangeCallback := false, nNodesC1 := 3, nNodesC2 := 3,
                        nNodesC3 := 2, stopTime := 30 }) &&
      decide (r.net.topo.cluster1.length = 3) &&
      decide (r.net.topo.cluster2.length = 3) &&
      decide (r.net.topo.cluster3.length = 2) &&
      decide (r.net.topo.sim.nNodes = 8) &&
      decide (r.courseChangeConnected = false) &&
      decide (r.simulatorStop = 30)) = true := by decide
  rw [hr] at hall
  simp only [Option.all_some, Bool.and_eq_true, decide_eq_true_eq] at hall
  obtain ⟨⟨⟨⟨⟨⟨a1, a2⟩, a3⟩, a4⟩, a5⟩, a6⟩, a7⟩ := hall
  exact ⟨r, hr, a1, a2, a3, a4, a5, a6, a7⟩

/-- C7 as stated fails: `nNodesC1 = 0`, `nNodesC2 = 3`, `nNodesC3 = 2` is
within the stated bounds, yet `cluster1.Get (0)` has no node to return, no
topology is built and no address is assigned. -/
theorem no_addresses_without_cluster1_node :
    (0 : Nat) ≤ 254 ∧ (3 : Nat) ≤ 254 ∧ (2 : Nat) ≤ 253 ∧
      buildTopology { Config.initial with nNodesC1 := 0 } = none ∧
      buildNetwork { Config.initial with nNodesC1 := 0 } = none ∧
      main [Flag.nNodesC1 0] = none := by
  refine ⟨by decide, by decide, by decide, by decide, by decide, by decide⟩

/-- C7, amended: for `1 <= nNodesC1 <= 254`, `nNodesC2 <= 254` and
`nNodesC3 <= 253` the addresses are assigned; every device of `devicesC1`,
`devicesC2`, `devicesC3` gets one interface, in container order; the i-th
one (0-based) has address 10.1.1.(i+1), 10.1.2.(i+1), 10.1.3.(i+1)
respectively and mask 255.255.255.0; all assigned addresses are pairwise
distinct; and the addresses on the gateway node are exactly 10.1.1.1 and
10.1.3.1. -/
theorem addresses_per_cluster (cfg : Config) (h1 : 1 ≤ cfg.nNodesC1)
    (b1 : cfg.nNodesC1 ≤ 254) (b2 : cfg.nNodesC2 ≤ 254) (b3 : cfg.nNodesC3 ≤ 253) :
    ∃ a, buildNetwork cfg = some a ∧
      a.ifacesC1.map Ipv4Interface.device = a.topo.devicesC1 ∧
      a.ifacesC2.map Ipv4Interface.device = a.topo.devicesC2 ∧
      a.ifacesC3.map Ipv4Interface.device = a.topo.devicesC3 ∧
      a.topo.devicesC1.length = cfg.nNodesC1 ∧
      a.topo.devicesC2.length = cfg.nNodesC2 ∧
      a.topo.devicesC3.length = cfg.nNodesC3 + 1 ∧
      (∀ i e, a.ifacesC1[i]? = some e →
        e.addr = Ipv4Address 10 1 1 (i + 1) ∧ e.mask = Ipv4Address 255 255 255 0) ∧
      (∀ i e, a.ifacesC2[i]? = some e →
        e.addr = Ipv4Address 10 1 2 (i + 1) ∧ e.mask = Ipv4Address 255 255 255 0) ∧
      (∀ i e, a.ifacesC3[i]? = some e →
        e.addr = Ipv4Address 10 1 3 (i + 1) ∧ e.mask = Ipv4Address 255 255 255 0) ∧
      ((a.ifacesC1 ++ a.ifacesC2 ++ a.ifacesC3).map Ipv4Interface.addr).Nodup ∧
      ((a.ifacesC1 ++ a.ifacesC2 ++ a.ifacesC3).filter
          (fun e => e.device.node = a.topo.gatewayNode)).map Ipv4Interface.addr =
        [Ipv4Address 10 1 1 1, Ipv4Address 10 1 3 1] := by
  obtain ⟨a, ha, nb⟩ := buildNetwork_some cfg h1 b1 b2 b3
  have s := nb.shape
  refine ⟨a, ha, nb.dev1, nb.dev2, nb.dev3, s.length1, s.length2, s.length3, ?_, ?_, ?_, ?_, ?_⟩
  · intro i e he
    refine ⟨?_, nb.mask1 e (List.getElem?_mem he)⟩
    rw [addr_of_getElem? _ _ _ i e nb.addr1 he]
    simp only [Ipv4Address]
    omega
  · intro i e he
    refine ⟨?_, nb.mask2 e (List.getElem?_mem he)⟩
    rw [addr_of_getElem? _ _ _ i e nb.addr2 he]
    simp only [Ipv4Address]
    omega
  · intro i e he
    refine ⟨?_, nb.mask3 e (List.getElem?_mem he)⟩
    rw [addr_of_getElem? _ _ _ i e nb.addr3 he]
    simp only [Ipv4Address]
    omega
  · rw [List.map_append, List.map_append, nb.addr1, nb.addr2, nb.addr3, List.nodup_append,
      List.nodup_append]
    refine ⟨⟨nodup_freshNodes _ _, nodup_freshNodes _ _, ?_⟩, nodup_freshNodes _ _, ?_⟩
    · intro x x1 x2
      rw [mem_freshNodes] at x1 x2
      simp only [Ipv4Address] at x1 x2
      omega
    · intro x x12 x3
      rw [List.mem_append, mem_freshNodes, mem_freshNodes] at x12
      rw [mem_freshNodes] at x3
      simp only [Ipv4Address] at x12 x3
      omega
  · obtain ⟨k, hk⟩ : ∃ k, cfg.nNodesC1 = k + 1 := ⟨cfg.nNodesC1 - 1, by omega⟩
    have n1 : (a.ifacesC1.map Ipv4Interface.device).map NetDevice.node =
        a.topo.gatewayNode :: freshNodes 1 k := by
      rw [nb.dev1, s.nodes1, s.cluster1, s.gateway_zero, hk]
      rfl
    have n2 : a.topo.gatewayNode ∉ (a.ifacesC2.map Ipv4Interface.device).map NetDevice.node := by
      rw [nb.dev2, s.nodes2]
      exact s.gateway_not_mem_cluster2 h1
    have n3 : (a.ifacesC3.map Ipv4Interface.device).map NetDevice.node =
        a.topo.gatewayNode :: a.topo.cluster3 := by
      rw [nb.dev3, s.nodes3, s.all3]
    have g1 : a.topo.gatewayNode ∉ freshNodes 1 k := by
      rw [s.gateway_zero, mem_freshNodes]
      omega
    rw [List.filter_append, List.filter_append, List.map_append, List.map_append,
      ifaces_filter_head _ _ _ _ _ n1 g1 nb.addr1, ifaces_filter_nil _ _ n2,
      ifaces_filter_head _ _ _ _ _ n3 (s.gateway_not_mem_cluster3 h1) nb.addr3]
    rfl

/-- C7, amended, at the default sizes 3, 3 and 2. -/
theorem addresses_per_cluster_witness :
    ∃ a, buildNetwork Config.initial = some a ∧
      a.ifacesC1.map Ipv4Interface.device = a.topo.devicesC1 ∧
      a.ifacesC2.map Ipv4Interface.device = a.topo.devicesC2 ∧
      a.ifacesC3.map Ipv4Interface.device = a.topo.devicesC3 ∧
      a.topo.devicesC1.length = 3 ∧
      a.topo.devicesC2.length = 3 ∧
      a.topo.devicesC3.length = 2 + 1 ∧
      (∀ i e, a.ifacesC1[i]? = some e →
        e.addr = Ipv4Address 10 1 1 (i + 1) ∧ e.mask = Ipv4Address 255 255 255 0) ∧
      (∀ i e, a.ifacesC2[i]? = some e →
        e.addr = Ipv4Address 10 1 2 (i + 1) ∧ e.mask = Ipv4Address 255 255 255 0) ∧
      (∀ i e, a.ifacesC3[i]? = some e →
        e.addr = Ipv4Address 10 1 3 (i + 1) ∧ e.mask = Ipv4Address 255 255 255 0) ∧
      ((a.ifacesC1 ++ a.ifacesC2 ++ a.ifacesC3).map Ipv4Interface.addr).Nodup ∧
      ((a.ifacesC1 ++ a.ifacesC2 ++ a.ifacesC3).filter
          (fun e => e.device.node = a.topo.gatewayNode)).map Ipv4Interface.addr =
        [Ipv4Address 10 1 1 1, Ipv4Address 10 1 3 1] :=
  addresses_per_cluster Config.initial (by decide) (by decide) (by decide) (by decide)

/-- C5: for every `nNodesC1 >= 1` and `nNodesC3 >= 1`, in every network that
sections 1 to 5 of `main` produce, the echo server node `cluster3.Get (0)`
exists and the address given to the echo client, `ifacesC3.GetAddress (1)`,
is the address of the interface made for `devicesC3[1]`, which sits on the
echo server node and is the only entry of `ifacesC3` on that node; entry 0
of `devicesC3` and `ifacesC3` belongs to the gateway node and entry i+1 to
`cluster3.Get (i)`.  Such a network is produced whenever the three address
pools suffice (`nNodesC1 <= 254`, `nNodesC2 <= 254`, `nNodesC3 <= 253`). -/
theorem client_destination_is_server (cfg : Config) (h1 : 1 ≤ cfg.nNodesC1)
    (h3 : 1 ≤ cfg.nNodesC3) :
    (∀ a, buildNetwork cfg = some a → ClientAimedAtServer cfg a) ∧
      (cfg.nNodesC1 ≤ 254 → cfg.nNodesC2 ≤ 254 → cfg.nNodesC3 ≤ 253 →
        ∃ a, buildNetwork cfg = some a ∧ ClientAimedAtServer cfg a) := by
  have hall : ∀ a, buildNetwork cfg = some a → ClientAimedAtServer cfg a := by
    intro a ha
    obtain ⟨s, dev3⟩ := buildNetwork_inv cfg a h1 ha
    exact s.client_aimed_at_server dev3 h1 h3
  refine ⟨hall, ?_⟩
  intro b1 b2 b3
  obtain ⟨a, ha, _⟩ := buildNetwork_some cfg h1 b1 b2 b3
  exact ⟨a, ha, hall a ha⟩

/-- C5 at the default sizes 3, 3 and 2: the network is produced and the echo
client is aimed at the echo server. -/
theorem client_destination_is_server_witness :
    (1 : Nat) ≤ Config.initial.nNodesC1 ∧ (1 : Nat) ≤ Config.initial.nNodesC3 ∧
      ∃ a, buildNetwork Config.initial = some a ∧ ClientAimedAtServer Config.initial a :=
  ⟨by decide, by decide,
    (client_destination_is_server Config.initial (by decide) (by decide)).2
      (by decide) (by decide) (by decide)⟩

end Manet
